import Mathlib

/-!
Shallow embedding of the HiDes modulator device driver layer
(`src/src/libtsduck/linux/tsHiDesDevice.cpp`) and proofs about its
pacing, retry, state-transition, validation and error-rendering logic.

External effects (ioctl control commands, write(2) data-channel calls,
monotonic clock reads, sleeps) are modelled by explicit oracles and by an
event trace returned alongside the mutated `Guts` state.  Machine
integers are modelled by `Nat`/`Int`; all quantities that the source
keeps in 64-bit variables stay far below 2^63 in the reachable states
considered here, so no wrap-around modelling is needed.
-/

namespace HiDesDevice

/-- Size of one transport stream packet in bytes (`ts::PKT_SIZE`). -/
def PKT_SIZE : Nat := 188

/-- Maximum number of packets per data-channel write
(`#define ITE_MAX_SEND_PACKETS 172` in tsHiDesDevice.cpp). -/
def ITE_MAX_SEND_PACKETS : Nat := 172

/-- Maximum number of bytes per data-channel write
(`#define ITE_MAX_SEND_BYTES (ITE_MAX_SEND_PACKETS * 188)`). -/
def ITE_MAX_SEND_BYTES : Nat := ITE_MAX_SEND_PACKETS * 188

/-- Nanoseconds per second (`ts::NanoSecPerSec`). -/
def NanoSecPerSec : Nat := 1000000000

/-- Linux host error code for an interrupted system call (`EINTR`). -/
def EINTR : Int := 4

/-- Delay in microseconds between two retries of a failed write
(`const ::useconds_t error_delay = 100;` in `Guts::send`). -/
def error_delay : Nat := 100

/-- Maximum number of retries for one chunk
(`const size_t max_retry = 100;` in `Guts::send`). -/
def max_retry : Nat := 100

/-- Mutable state of `ts::HiDesDevice::Guts`.  The file descriptor `fd`
and the immutable `info` snapshot are omitted: no claim below depends on
them.  `due_time` is the monotonic clock value in nanoseconds. -/
structure Guts where
  transmitting : Bool
  bitrate : Nat
  due_time : Nat
  pkt_sent : Nat
  all_write : Nat
  fail_write : Nat
  deriving DecidableEq

/-- Result of one `write(2)` call on the data channel: the driver status
returned by `write` (0 = chunk fully accepted) and the `errno` value
after the call. -/
structure WriteResult where
  status : Int
  errno : Int
  deriving DecidableEq

/-- Observable side effects of one `Guts::send` call, in program order. -/
inductive Event where
  | reportNotStarted
  | waitUntil (due : Nat)
  | write (burst : Nat)
  | sleep (usec : Nat)
  | reportSendError (status : Int) (errno : Int)
  deriving DecidableEq

/-- Number of data-channel write attempts recorded in a trace. -/
def numWrites : List Event → Nat
  | [] => 0
  | Event.write _ :: tr => numWrites tr + 1
  | _ :: tr => numWrites tr

/-- Number of retry sleeps recorded in a trace. -/
def numSleeps : List Event → Nat
  | [] => 0
  | Event.sleep _ :: tr => numSleeps tr + 1
  | _ :: tr => numSleeps tr

/-- Byte sizes of the write attempts recorded in a trace, in order. -/
def writeBursts : List Event → List Nat
  | [] => []
  | Event.write b :: tr => b :: writeBursts tr
  | _ :: tr => writeBursts tr

/-- Pacing resynchronization check at the top of `Guts::send`
(tsHiDesDevice.cpp lines 786-802): with pacing enabled, the first send
snaps `due_time` to now; otherwise, if `due_time` already passed, the
overrun is logged, `due_time` snaps to now and `pkt_sent` resets. -/
def sendResync (now : Nat) (st : Guts) : Guts :=
  if st.bitrate ≠ 0 then
    if st.pkt_sent = 0 then { st with due_time := now }
    else if st.due_time < now then { st with due_time := now, pkt_sent := 0 }
    else st
  else st

/-- The statistics update done after every `write(2)` call in
`Guts::send` (lines 834-837): `all_write++` always, `fail_write++` when
the status is non-zero. -/
def sendCount (status : Int) (st : Guts) : Guts :=
  { st with
    all_write := st.all_write + 1,
    fail_write := if status ≠ 0 then st.fail_write + 1 else st.fail_write }

/-- The success path of one chunk in `Guts::send` (lines 840-851):
`pkt_sent += burst` and, when pacing is enabled, `due_time` advanced by
`(burst * 8 * PKT_SIZE * NanoSecPerSec) / bitrate`.  The cursor/remain
update is handled by the loop itself. -/
def sendAdvance (burst : Nat) (st : Guts) : Guts :=
  { st with
    pkt_sent := st.pkt_sent + burst,
    due_time := if st.bitrate ≠ 0 then
        st.due_time + (burst * 8 * PKT_SIZE * NanoSecPerSec) / st.bitrate
      else st.due_time }

/-- The `while (remain > 0)` retry loop of `Guts::send`
(tsHiDesDevice.cpp lines 817-866).  `oracle i` is the result of the
`i`-th `write(2)` call issued by this `send` invocation; `fuel` bounds
the number of loop iterations (the C++ loop can run forever under a
perpetual `EINTR`, so the embedding is fuelled and returns `none` only
when the fuel bound is hit). -/
def sendLoop (oracle : Nat → WriteResult) :
    Nat → Nat → Nat → Nat → Guts → Option (Bool × Guts × List Event)
  | 0, _, remain, _, st => if remain = 0 then some (true, st, []) else none
  | fuel + 1, n, remain, retry_count, st =>
    if remain = 0 then some (true, st, []) else
    let burst := min remain ITE_MAX_SEND_BYTES
    let pre : List Event :=
      if retry_count = 0 ∧ st.bitrate ≠ 0 then [Event.waitUntil st.due_time] else []
    let r := oracle n
    let st1 : Guts := sendCount r.status st
    if r.status = 0 then
      match sendLoop oracle fuel (n + 1) (remain - burst) 0 (sendAdvance burst st1) with
      | none => none
      | some (ok, stf, tr) => some (ok, stf, pre ++ Event.write burst :: tr)
    else if r.errno = EINTR then
      match sendLoop oracle fuel (n + 1) remain retry_count st1 with
      | none => none
      | some (ok, stf, tr) => some (ok, stf, pre ++ Event.write burst :: tr)
    else if retry_count < max_retry then
      match sendLoop oracle fuel (n + 1) remain (retry_count + 1) st1 with
      | none => none
      | some (ok, stf, tr) =>
        some (ok, stf, pre ++ Event.write burst :: Event.sleep error_delay :: tr)
    else
      some (false, st1, pre ++ [Event.write burst, Event.reportSendError r.status r.errno])

/-- `ts::HiDesDevice::Guts::send` (tsHiDesDevice.cpp lines 779-869):
the not-transmitting guard, the pacing resync check, then the chunked
retry loop over `packet_count * PKT_SIZE` bytes.  `now` is the value
read from the monotonic clock during the resync check. -/
def send (now : Nat) (oracle : Nat → WriteResult) (fuel : Nat)
    (packet_count : Nat) (st : Guts) : Option (Bool × Guts × List Event) :=
  if st.transmitting = false then some (false, st, [Event.reportNotStarted])
  else sendLoop oracle fuel 0 (packet_count * PKT_SIZE) 0 (sendResync now st)

/-- Chunk byte sizes of a request of `remain` bytes, fuelled version:
each step takes `min remain ITE_MAX_SEND_BYTES`, exactly as the loop in
`Guts::send` computes its bursts. -/
def chunkSizesAux : Nat → Nat → List Nat
  | 0, _ => []
  | fuel + 1, remain =>
    if remain = 0 then []
    else min remain ITE_MAX_SEND_BYTES :: chunkSizesAux fuel (remain - min remain ITE_MAX_SEND_BYTES)

/-- Chunk byte sizes of a request of `remain` bytes: the sequence of
burst sizes `Guts::send` issues when every write succeeds. -/
def chunkSizes (remain : Nat) : List Nat :=
  chunkSizesAux (remain / ITE_MAX_SEND_BYTES + 1) remain

/-- Control-channel commands issued through `ioctl` by the functions
modelled here.  `enableTxMode onOff` carries the `TxModeRequest.OnOff`
payload (1 in `startTransmission`, 0 in `stopTransmission`). -/
inductive Cmd where
  | acquireChannel
  | setModule
  | setSpectralInversion
  | enableTxMode (onOff : Nat)
  | startTransfer
  | stopTransfer
  deriving DecidableEq

/-- Outcome of one `ioctl` control command: the `ioctl` return value and
the `error` status field embedded in the request structure. -/
structure IoctlResult where
  ret : Int
  err : Int
  deriving DecidableEq

/-- A control command fails if the transport call itself errors
(`ioctl(...) < 0`) or the embedded device status is non-zero
(`request.error != 0`), the pattern used at every call site. -/
def cmdFails (r : IoctlResult) : Bool :=
  decide (r.ret < 0 ∨ r.err ≠ 0)

/-- `ts::HiDesDevice::Guts::startTransmission` (tsHiDesDevice.cpp lines
686-718): enable-mode then start-transfer; either failing returns false
with the state untouched; both succeeding sets `transmitting` and
resets `pkt_sent`, `all_write` and `fail_write`.  The best-effort clock
precision request at the top only logs and is not modelled.  `oracle`
gives the device's answer to each control command. -/
def startTransmission (oracle : Cmd → IoctlResult) (st : Guts) :
    Bool × Guts × List Cmd :=
  if cmdFails (oracle (.enableTxMode 1)) then (false, st, [.enableTxMode 1])
  else if cmdFails (oracle .startTransfer) then
    (false, st, [.enableTxMode 1, .startTransfer])
  else
    (true,
      { st with transmitting := true, pkt_sent := 0, all_write := 0, fail_write := 0 },
      [.enableTxMode 1, .startTransfer])

/-- `ts::HiDesDevice::Guts::stopTransmission` (tsHiDesDevice.cpp lines
736-761): stop-transfer then disable-mode (`enableTxMode 0`); either
failing returns false immediately, leaving the state untouched; only
when both succeed is `transmitting` cleared. -/
def stopTransmission (oracle : Cmd → IoctlResult) (st : Guts) :
    Bool × Guts × List Cmd :=
  if cmdFails (oracle .stopTransfer) then (false, st, [.stopTransfer])
  else if cmdFails (oracle (.enableTxMode 0)) then
    (false, st, [.stopTransfer, .enableTxMode 0])
  else (true, { st with transmitting := false }, [.stopTransfer, .enableTxMode 0])

/-- TSDuck DVB-T constellation values reaching `tune`.  `QAM_32`,
`QAM_128` and `QAM_256` are TSDuck `Modulation` values outside the set
accepted by the `switch (params.modulation)` in `tune`. -/
inductive Modulation where
  | QPSK | QAM_16 | QAM_64 | QAM_32 | QAM_128 | QAM_256
  deriving DecidableEq

/-- TSDuck inner FEC values reaching `tune`.  `FEC_4_5` and `FEC_NONE`
are TSDuck values outside the set accepted by `switch (params.fec_hp)`. -/
inductive InnerFEC where
  | FEC_1_2 | FEC_2_3 | FEC_3_4 | FEC_5_6 | FEC_7_8 | FEC_4_5 | FEC_NONE
  deriving DecidableEq

/-- TSDuck guard interval values reaching `tune`.  `GUARD_1_128` is a
TSDuck value outside the set accepted by
`switch (params.guard_interval)`. -/
inductive GuardInterval where
  | GUARD_1_32 | GUARD_1_16 | GUARD_1_8 | GUARD_1_4 | GUARD_1_128
  deriving DecidableEq

/-- TSDuck transmission mode values reaching `tune`.  `TM_16K` is a
TSDuck value outside the set accepted by
`switch (params.transmission_mode)`. -/
inductive TransmissionMode where
  | TM_2K | TM_4K | TM_8K | TM_16K
  deriving DecidableEq

/-- TSDuck spectral inversion values reaching `tune`.  `SPINV_OTHER`
models any raw value of the int-backed C++ enum outside the three
handled cases, reaching the `default` branch of
`switch (params.inversion)`. -/
inductive SpectralInversion where
  | SPINV_OFF | SPINV_ON | SPINV_AUTO | SPINV_OTHER
  deriving DecidableEq

/-- TSDuck bandwidth values reaching `tune`; converted to Hz by the
external `BandWidthValueHz`, which yields 0 for `BW_AUTO` and unknown
values. -/
inductive BandWidth where
  | BW_5_MHZ | BW_6_MHZ | BW_7_MHZ | BW_8_MHZ | BW_AUTO
  deriving DecidableEq

/-- The slice of `ts::TunerParametersDVBT` read by `tune`.
`theoreticalBitrate` models the externally supplied bitrate formula
`params.theoreticalBitrate()` evaluated on these parameters. -/
structure TunerParametersDVBT where
  frequency : Nat
  bandwidth : BandWidth
  modulation : Modulation
  fec_hp : InnerFEC
  guard_interval : GuardInterval
  transmission_mode : TransmissionMode
  inversion : SpectralInversion
  theoreticalBitrate : Nat
  deriving DecidableEq

/-- HiDes constellation command codes (`ite::Mode_QPSK`, ...), symbolic
since tsIT950x.h is outside src/. -/
inductive IteConstellation where
  | Mode_QPSK | Mode_16QAM | Mode_64QAM
  deriving DecidableEq

/-- HiDes code rate command codes (`ite::CodeRate_1_OVER_2`, ...). -/
inductive IteCodeRate where
  | CodeRate_1_OVER_2 | CodeRate_2_OVER_3 | CodeRate_3_OVER_4
  | CodeRate_5_OVER_6 | CodeRate_7_OVER_8
  deriving DecidableEq

/-- HiDes guard interval command codes (`ite::Interval_1_OVER_32`, ...). -/
inductive IteInterval where
  | Interval_1_OVER_32 | Interval_1_OVER_16 | Interval_1_OVER_8 | Interval_1_OVER_4
  deriving DecidableEq

/-- HiDes transmission mode command codes (`ite::TransmissionMode_2K`, ...). -/
inductive IteTransmissionMode where
  | TransmissionMode_2K | TransmissionMode_4K | TransmissionMode_8K
  deriving DecidableEq

/-- The `switch (params.modulation)` of `tune` (lines 554-567): `none`
is the `default` branch reporting "unsupported constellation". -/
def constellationCode : Modulation → Option IteConstellation
  | .QPSK => some .Mode_QPSK
  | .QAM_16 => some .Mode_16QAM
  | .QAM_64 => some .Mode_64QAM
  | _ => none

/-- The `switch (params.fec_hp)` of `tune` (lines 569-588). -/
def codeRateCode : InnerFEC → Option IteCodeRate
  | .FEC_1_2 => some .CodeRate_1_OVER_2
  | .FEC_2_3 => some .CodeRate_2_OVER_3
  | .FEC_3_4 => some .CodeRate_3_OVER_4
  | .FEC_5_6 => some .CodeRate_5_OVER_6
  | .FEC_7_8 => some .CodeRate_7_OVER_8
  | _ => none

/-- The `switch (params.guard_interval)` of `tune` (lines 590-606). -/
def intervalCode : GuardInterval → Option IteInterval
  | .GUARD_1_32 => some .Interval_1_OVER_32
  | .GUARD_1_16 => some .Interval_1_OVER_16
  | .GUARD_1_8 => some .Interval_1_OVER_8
  | .GUARD_1_4 => some .Interval_1_OVER_4
  | _ => none

/-- The `switch (params.transmission_mode)` of `tune` (lines 608-621). -/
def transmissionModeCode : TransmissionMode → Option IteTransmissionMode
  | .TM_2K => some .TransmissionMode_2K
  | .TM_4K => some .TransmissionMode_4K
  | .TM_8K => some .TransmissionMode_8K
  | _ => none

/-- The `switch (params.inversion)` of `tune` (lines 628-641): `some
(some b)` sets `isInversion = b`, `some none` is `SPINV_AUTO` (the
set-spectral-inversion command is skipped), `none` is the `default`
branch reporting "unsupported spectral inversion". -/
def inversionSetting : SpectralInversion → Option (Option Bool)
  | .SPINV_OFF => some (some false)
  | .SPINV_ON => some (some true)
  | .SPINV_AUTO => some none
  | .SPINV_OTHER => none

/-- Outcome of `tune`: success, one of the parameter validation
failures, or a failed control command. -/
inductive TuneResult where
  | ok
  | unsupportedBandwidth
  | unsupportedConstellation
  | unsupportedCodeRate
  | unsupportedGuardInterval
  | unsupportedTransmissionMode
  | unsupportedInversion
  | commandFailed (c : Cmd)
  deriving DecidableEq

/-- Whether a `TuneResult` is one of the parameter validation failures
(the spec's UnsupportedParameter class). -/
def isUnsupportedParameter : TuneResult → Bool
  | .unsupportedBandwidth => true
  | .unsupportedConstellation => true
  | .unsupportedCodeRate => true
  | .unsupportedGuardInterval => true
  | .unsupportedTransmissionMode => true
  | .unsupportedInversion => true
  | _ => false

/-- `ts::HiDesDevice::tune` (tsHiDesDevice.cpp lines 528-668) after the
open check: validate bandwidth (conversion to kHz yielding 0 fails),
then translate modulation, code rate, guard interval, transmission mode
and spectral inversion through their switches; only then issue
acquire-channel, set-modulation and (unless inversion is auto)
set-spectral-inversion, each checked for failure; on full success store
the nominal bitrate.  The frequency conversion
`uint32_t(params.frequency / 1000)` cannot fail and does not influence
any result modelled here.  `bandWidthValueHz` models the external
`BandWidthValueHz` lookup, `oracle` the control channel. -/
def tune (bandWidthValueHz : BandWidth → Nat) (oracle : Cmd → IoctlResult)
    (params : TunerParametersDVBT) (st : Guts) : TuneResult × Guts × List Cmd :=
  if bandWidthValueHz params.bandwidth / 1000 = 0 then (.unsupportedBandwidth, st, [])
  else
    match constellationCode params.modulation with
    | none => (.unsupportedConstellation, st, [])
    | some _ =>
      match codeRateCode params.fec_hp with
      | none => (.unsupportedCodeRate, st, [])
      | some _ =>
        match intervalCode params.guard_interval with
        | none => (.unsupportedGuardInterval, st, [])
        | some _ =>
          match transmissionModeCode params.transmission_mode with
          | none => (.unsupportedTransmissionMode, st, [])
          | some _ =>
            match inversionSetting params.inversion with
            | none => (.unsupportedInversion, st, [])
            | some setInv =>
              if cmdFails (oracle .acquireChannel) then
                (.commandFailed .acquireChannel, st, [.acquireChannel])
              else if cmdFails (oracle .setModule) then
                (.commandFailed .setModule, st, [.acquireChannel, .setModule])
              else
                match setInv with
                | some _ =>
                  if cmdFails (oracle .setSpectralInversion) then
                    (.commandFailed .setSpectralInversion, st,
                      [.acquireChannel, .setModule, .setSpectralInversion])
                  else
                    (.ok, { st with bitrate := params.theoreticalBitrate },
                      [.acquireChannel, .setModule, .setSpectralInversion])
                | none =>
                  (.ok, { st with bitrate := params.theoreticalBitrate },
                    [.acquireChannel, .setModule])

/-- `ts::HiDesDevice::Guts::HiDesErrorMessage` (tsHiDesDevice.cpp lines
196-214).  `dvbName` models the external status-to-text lookup
`DVBNameFromSection(u"HiDesError", std::abs(driver_status), ...)`;
`errMsg` models `ErrorCodeMessage`. -/
def hiDesErrorMessage (dvbName : Nat → String) (errMsg : Int → String)
    (driver_status : Int) (errno_status : Int) : String :=
  let msg : String := if driver_status ≠ 0 then dvbName driver_status.natAbs else ""
  if errno_status ≠ 0 ∧ errno_status ≠ driver_status then
    (if msg.isEmpty then msg else msg ++ ", ") ++ errMsg errno_status
  else msg

/-! Helper lemmas. -/

lemma numWrites_append (l1 l2 : List Event) :
    numWrites (l1 ++ l2) = numWrites l1 + numWrites l2 := by
  induction l1 with
  | nil => simp [numWrites]
  | cons e tl ih => cases e <;> (simp [numWrites, ih]; try omega)

lemma numSleeps_append (l1 l2 : List Event) :
    numSleeps (l1 ++ l2) = numSleeps l1 + numSleeps l2 := by
  induction l1 with
  | nil => simp [numSleeps]
  | cons e tl ih => cases e <;> (simp [numSleeps, ih]; try omega)

lemma writeBursts_append (l1 l2 : List Event) :
    writeBursts (l1 ++ l2) = writeBursts l1 ++ writeBursts l2 := by
  induction l1 with
  | nil => simp [writeBursts]
  | cons e tl ih => cases e <;> simp [writeBursts, ih]

lemma sendResync_preserves (now : Nat) (st : Guts) :
    (sendResync now st).transmitting = st.transmitting ∧
    (sendResync now st).bitrate = st.bitrate ∧
    (sendResync now st).all_write = st.all_write ∧
    (sendResync now st).fail_write = st.fail_write := by
  unfold sendResync
  split <;> [skip; simp]
  split <;> [simp; skip]
  split <;> simp

lemma string_empty_append (s : String) : "" ++ s = s := by
  cases s with
  | mk data => rfl

lemma chunkSizesAux_zero_remain (f : Nat) : chunkSizesAux f 0 = [] := by
  cases f <;> simp [chunkSizesAux]

lemma ITE_MAX_SEND_BYTES_pos : 0 < ITE_MAX_SEND_BYTES := by decide

lemma sub_min_bound {f remain : Nat} (h : remain ≤ (f + 1) * ITE_MAX_SEND_BYTES) :
    remain - min remain ITE_MAX_SEND_BYTES ≤ f * ITE_MAX_SEND_BYTES := by
  rcases le_or_lt remain ITE_MAX_SEND_BYTES with hle | hgt
  · simp [Nat.min_eq_left hle]
  · rw [Nat.min_eq_right hgt.le]
    refine Nat.sub_le_iff_le_add.2 ?_
    calc remain ≤ (f + 1) * ITE_MAX_SEND_BYTES := h
      _ = f * ITE_MAX_SEND_BYTES + ITE_MAX_SEND_BYTES := by ring

lemma chunkSizesAux_congr : ∀ f1 f2 remain, remain ≤ f1 * ITE_MAX_SEND_BYTES →
    remain ≤ f2 * ITE_MAX_SEND_BYTES → chunkSizesAux f1 remain = chunkSizesAux f2 remain := by
  intro f1
  induction f1 with
  | zero =>
    intro f2 remain h1 _
    have hr : remain = 0 := by simpa using h1
    simp [hr, chunkSizesAux_zero_remain, chunkSizesAux]
  | succ f ih =>
    intro f2 remain h1 h2
    by_cases hr : remain = 0
    · simp [hr, chunkSizesAux_zero_remain]
    · cases f2 with
      | zero => exact absurd (by simpa using h2) hr
      | succ g =>
        simp only [chunkSizesAux, if_neg hr]
        congr 1
        exact ih g _ (sub_min_bound h1) (sub_min_bound h2)

lemma chunkSizesAux_eq_chunkSizes {f remain : Nat} (h : remain ≤ f * ITE_MAX_SEND_BYTES) :
    chunkSizesAux f remain = chunkSizes remain := by
  unfold chunkSizes
  refine chunkSizesAux_congr f _ remain h ?_
  have h2 : remain % ITE_MAX_SEND_BYTES < ITE_MAX_SEND_BYTES :=
    Nat.mod_lt _ ITE_MAX_SEND_BYTES_pos
  calc remain
      = ITE_MAX_SEND_BYTES * (remain / ITE_MAX_SEND_BYTES) + remain % ITE_MAX_SEND_BYTES :=
        (Nat.div_add_mod remain ITE_MAX_SEND_BYTES).symm
    _ ≤ ITE_MAX_SEND_BYTES * (remain / ITE_MAX_SEND_BYTES) + ITE_MAX_SEND_BYTES :=
        Nat.add_le_add_left h2.le _
    _ = (remain / ITE_MAX_SEND_BYTES + 1) * ITE_MAX_SEND_BYTES := by ring

lemma chunkSizesAux_bursts : ∀ f remain, PKT_SIZE ∣ remain →
    ∀ b ∈ chunkSizesAux f remain, 0 < b ∧ b ≤ ITE_MAX_SEND_BYTES ∧ PKT_SIZE ∣ b := by
  intro f
  induction f with
  | zero =>
    intro remain _ b hb
    simp [chunkSizesAux] at hb
  | succ g ih =>
    intro remain hdvd b hb
    by_cases hr : remain = 0
    · simp [hr, chunkSizesAux] at hb
    · have hmin : PKT_SIZE ∣ min remain ITE_MAX_SEND_BYTES := by
        rcases le_or_lt remain ITE_MAX_SEND_BYTES with hle | hgt
        · rw [Nat.min_eq_left hle]; exact hdvd
        · rw [Nat.min_eq_right hgt.le]; decide
      simp only [chunkSizesAux, if_neg hr, List.mem_cons] at hb
      rcases hb with hb | hb
      · subst hb
        exact ⟨lt_min (Nat.pos_of_ne_zero hr) ITE_MAX_SEND_BYTES_pos,
          Nat.min_le_right _ _, hmin⟩
      · exact ih _ (Nat.dvd_sub' hdvd hmin) b hb

lemma chunkSizesAux_full_chunks : ∀ f remain i, i + 1 < (chunkSizesAux f remain).length →
    (chunkSizesAux f remain)[i]? = some ITE_MAX_SEND_BYTES := by
  intro f
  induction f with
  | zero =>
    intro remain i h
    simp [chunkSizesAux] at h
  | succ g ih =>
    intro remain i h
    by_cases hr : remain = 0
    · simp [hr, chunkSizesAux] at h
    · simp only [chunkSizesAux, if_neg hr] at h ⊢
      cases i with
      | zero =>
        simp only [List.length_cons] at h
        have htail : chunkSizesAux g (remain - min remain ITE_MAX_SEND_BYTES) ≠ [] := by
          intro hnil
          rw [hnil] at h
          simp at h
        have hpos : remain - min remain ITE_MAX_SEND_BYTES ≠ 0 := by
          intro h0
          exact htail (h0 ▸ chunkSizesAux_zero_remain g)
        have hgt : ITE_MAX_SEND_BYTES < remain := by
          rcases le_or_lt remain ITE_MAX_SEND_BYTES with hle | hgt2
          · exact absurd (by rw [Nat.min_eq_left hle]; omega) hpos
          · exact hgt2
        rw [Nat.min_eq_right hgt.le]
        simp
      | succ j =>
        simp only [List.length_cons] at h
        simpa using ih (remain - min remain ITE_MAX_SEND_BYTES) j (by omega)

lemma sendLoop_allOk : ∀ (fuel remain n : Nat) (st : Guts),
    remain ≤ fuel * ITE_MAX_SEND_BYTES →
    ∃ stf tr, sendLoop (fun _ => ⟨0, 0⟩) fuel n remain 0 st = some (true, stf, tr) ∧
      writeBursts tr = chunkSizesAux fuel remain := by
  intro fuel
  induction fuel with
  | zero =>
    intro remain n st h
    have hr : remain = 0 := by simpa using h
    exact ⟨st, [], by simp [hr, sendLoop], by simp [hr, chunkSizesAux, writeBursts]⟩
  | succ f ih =>
    intro remain n st h
    by_cases hr : remain = 0
    · exact ⟨st, [], by simp [hr, sendLoop], by simp [hr, chunkSizesAux, writeBursts]⟩
    · obtain ⟨stf, tr, hrec, hbursts⟩ :=
        ih (remain - min remain ITE_MAX_SEND_BYTES) (n + 1)
          (sendAdvance (min remain ITE_MAX_SEND_BYTES) (sendCount 0 st)) (sub_min_bound h)
      by_cases hb : st.bitrate = 0
      · refine ⟨stf, Event.write (min remain ITE_MAX_SEND_BYTES) :: tr, ?_, ?_⟩
        · simp only [sendLoop, if_neg hr]
          simp [hb, hrec]
        · simp [writeBursts, hbursts, chunkSizesAux, if_neg hr]
      · refine ⟨stf,
          Event.waitUntil st.due_time :: Event.write (min remain ITE_MAX_SEND_BYTES) :: tr,
          ?_, ?_⟩
        · simp only [sendLoop, if_neg hr]
          simp [hb, hrec]
        · simp [writeBursts, hbursts, chunkSizesAux, if_neg hr]

/-! Theorems for the claims. -/

/-- C1: the claim says each fully accepted chunk advances the due-time
by `chunk_bytes * 8 * 1e9 / bit_rate` nanoseconds.  The code instead
advances it by `burst * 8 * PKT_SIZE * 1e9 / bit_rate` where `burst` is
already a byte count, a factor `PKT_SIZE = 188` too much: sending one
full 172-packet chunk (32336 bytes) at 1,000,000 b/s advances the
due-time by 48,633,344,000 ns, not the theoretical transmission time
32336 * 8 * 1e9 / 1e6 = 258,688,000 ns. -/
theorem send_due_time_advance_bug :
    send 0 (fun _ => ⟨0, 0⟩) 3 172 ⟨true, 1000000, 0, 0, 0, 0⟩ =
      some (true, ⟨true, 1000000, 48633344000, 32336, 1, 0⟩,
        [Event.waitUntil 0, Event.write 32336]) ∧
    48633344000 ≠ 32336 * 8 * 1000000000 / 1000000 := by
  decide

/-- C2: the claim says a fully successful send of k packets from a zero
counter leaves the sent-packet counter at k.  The code does
`pkt_sent += burst` with `burst` in bytes: after sending 1 packet the
counter is 188, not 1. -/
theorem send_pkt_sent_in_bytes_bug :
    send 0 (fun _ => ⟨0, 0⟩) 2 1 ⟨true, 0, 0, 0, 0, 0⟩ =
      some (true, ⟨true, 0, 0, 188, 1, 0⟩, [Event.write 188]) ∧
    (188 : Nat) ≠ 1 := by
  decide

/-- C3 counterexample: when the stop-transfer command fails,
`stopTransmission` returns false with the transmitting flag still set,
so the claimed unconditional Transmitting→Opened transition is false. -/
theorem stopTransmission_not_unconditional :
    cmdFails ((fun c => if c = Cmd.stopTransfer then (⟨-1, 0⟩ : IoctlResult) else ⟨0, 0⟩)
      Cmd.stopTransfer) = true ∧
    (stopTransmission (fun c => if c = Cmd.stopTransfer then ⟨-1, 0⟩ else ⟨0, 0⟩)
      ⟨true, 0, 0, 0, 0, 0⟩).1 = false ∧
    ¬ (stopTransmission (fun c => if c = Cmd.stopTransfer then ⟨-1, 0⟩ else ⟨0, 0⟩)
      ⟨true, 0, 0, 0, 0, 0⟩).2.1.transmitting = false := by
  decide

/-- C3 amended: `stopTransmission` issues stop-transfer then
disable-mode and clears the transmitting flag exactly when both
commands succeed; if either fails it returns failure with the state
unchanged (the transmitting flag is not cleared). -/
theorem stopTransmission_clears_only_on_success (oracle : Cmd → IoctlResult) (st : Guts) :
    (cmdFails (oracle .stopTransfer) = false →
      cmdFails (oracle (.enableTxMode 0)) = false →
      stopTransmission oracle st =
        (true, { st with transmitting := false }, [.stopTransfer, .enableTxMode 0])) ∧
    (cmdFails (oracle .stopTransfer) = true ∨ cmdFails (oracle (.enableTxMode 0)) = true →
      (stopTransmission oracle st).1 = false ∧ (stopTransmission oracle st).2.1 = st) := by
  unfold stopTransmission
  constructor
  · intro h1 h2
    simp [h1, h2]
  · intro h
    rcases h with h | h
    · simp [h]
    · by_cases h1 : cmdFails (oracle .stopTransfer) <;> simp [h1, h]

/-- Witness for the amended C3 theorem at a concrete oracle and state. -/
theorem stopTransmission_clears_only_on_success_witness :
    stopTransmission (fun _ => ⟨0, 0⟩) ⟨true, 5, 4, 3, 2, 1⟩ =
      (true, ⟨false, 5, 4, 3, 2, 1⟩, [.stopTransfer, .enableTxMode 0]) :=
  (stopTransmission_clears_only_on_success (fun _ => ⟨0, 0⟩) ⟨true, 5, 4, 3, 2, 1⟩).1
    (by decide) (by decide)

/-- C6: at the start of `send` with pacing enabled and a non-zero
sent-packet counter, if now exceeds the stored due-time then due-time
snaps to now and the counter resets to zero; otherwise this check
leaves the state unchanged. -/
theorem send_resync_check (now : Nat) (st : Guts)
    (hb : st.bitrate ≠ 0) (hp : st.pkt_sent ≠ 0) :
    (st.due_time < now → sendResync now st = { st with due_time := now, pkt_sent := 0 }) ∧
    (¬ st.due_time < now → sendResync now st = st) := by
  unfold sendResync
  constructor <;> intro h <;> simp [hb, hp, h]

/-- Witness for C6 at a concrete overrun state. -/
theorem send_resync_check_witness :
    (⟨true, 1000, 5, 10, 0, 0⟩ : Guts).bitrate ≠ 0 ∧
    (⟨true, 1000, 5, 10, 0, 0⟩ : Guts).pkt_sent ≠ 0 ∧
    (⟨true, 1000, 5, 10, 0, 0⟩ : Guts).due_time < 7 ∧
    sendResync 7 ⟨true, 1000, 5, 10, 0, 0⟩ = ⟨true, 1000, 7, 0, 0, 0⟩ :=
  ⟨by decide, by decide, by decide,
    (send_resync_check 7 ⟨true, 1000, 5, 10, 0, 0⟩ (by decide) (by decide)).1 (by decide)⟩

/-- C7: `startTransmission` transitions to Transmitting and resets the
pacing baseline (`pkt_sent = 0`, which makes the next paced `send` snap
`due_time` to now) and both write-statistics counters exactly when both
the enable-mode and start-transfer commands succeed; if either fails it
returns failure with the state unchanged and no counter reset. -/
theorem startTransmission_resets_and_transitions (oracle : Cmd → IoctlResult) (st : Guts) :
    (cmdFails (oracle (.enableTxMode 1)) = false →
      cmdFails (oracle .startTransfer) = false →
      startTransmission oracle st =
        (true,
          { st with transmitting := true, pkt_sent := 0, all_write := 0, fail_write := 0 },
          [.enableTxMode 1, .startTransfer]) ∧
      (∀ now : Nat, st.bitrate ≠ 0 →
        (sendResync now
          { st with transmitting := true, pkt_sent := 0, all_write := 0,
                    fail_write := 0 }).due_time = now)) ∧
    (cmdFails (oracle (.enableTxMode 1)) = true ∨ cmdFails (oracle .startTransfer) = true →
      (startTransmission oracle st).1 = false ∧ (startTransmission oracle st).2.1 = st) := by
  unfold startTransmission
  constructor
  · intro h1 h2
    refine ⟨by simp [h1, h2], ?_⟩
    intro now hb
    unfold sendResync
    simp [hb]
  · intro h
    rcases h with h | h
    · simp [h]
    · by_cases h1 : cmdFails (oracle (.enableTxMode 1)) <;> simp [h1, h]

/-- Witness for C7 at a concrete oracle and state. -/
theorem startTransmission_resets_and_transitions_witness :
    startTransmission (fun _ => ⟨0, 0⟩) ⟨false, 9, 8, 7, 6, 5⟩ =
      (true, ⟨true, 9, 8, 0, 0, 0⟩, [.enableTxMode 1, .startTransfer]) ∧
    (sendResync 42 ⟨true, 9, 8, 0, 0, 0⟩).due_time = 42 :=
  ⟨((startTransmission_resets_and_transitions (fun _ => ⟨0, 0⟩) ⟨false, 9, 8, 7, 6, 5⟩).1
      (by decide) (by decide)).1,
   ((startTransmission_resets_and_transitions (fun _ => ⟨0, 0⟩) ⟨false, 9, 8, 7, 6, 5⟩).1
      (by decide) (by decide)).2 42 (by decide)⟩

/-- C9: the error-text composition renders the device status through
the status-to-text lookup when it is non-zero, and appends the host
error text, comma-separated when the device text is present, exactly
when the host error code is non-zero and differs from the device
status; both zero gives the empty string. -/
theorem hiDesErrorMessage_spec (dvbName : Nat → String) (errMsg : Int → String) (d e : Int) :
    (d = 0 → e = 0 → hiDesErrorMessage dvbName errMsg d e = "") ∧
    (d ≠ 0 → (e = 0 ∨ e = d) → hiDesErrorMessage dvbName errMsg d e = dvbName d.natAbs) ∧
    (d ≠ 0 → e ≠ 0 → e ≠ d → (dvbName d.natAbs).isEmpty = false →
      hiDesErrorMessage dvbName errMsg d e = dvbName d.natAbs ++ ", " ++ errMsg e) ∧
    (d ≠ 0 → e ≠ 0 → e ≠ d → (dvbName d.natAbs).isEmpty = true →
      hiDesErrorMessage dvbName errMsg d e = errMsg e) ∧
    (d = 0 → e ≠ 0 → hiDesErrorMessage dvbName errMsg d e = errMsg e) := by
  unfold hiDesErrorMessage
  refine ⟨?_, ?_, ?_, ?_, ?_⟩
  · intro hd he
    simp [hd, he]
  · intro hd he
    rcases he with he | he <;> simp [hd, he]
  · intro hd he hed hne
    simp [hd, he, hed, hne]
  · intro hd he hed hne
    have hmsg : dvbName d.natAbs = "" := (String.isEmpty_iff _).1 hne
    have hE : ("" : String).isEmpty = true := rfl
    simp [hd, he, hed, hmsg, hE, string_empty_append]
  · intro hd he
    have hed : e ≠ d := by rw [hd]; exact he
    have hE : ("" : String).isEmpty = true := rfl
    simp [hd, he, hed, hE, string_empty_append]

/-- Witness for C9: both codes set and distinct, device text present. -/
theorem hiDesErrorMessage_spec_witness :
    (5 : Int) ≠ 0 ∧ (9 : Int) ≠ 0 ∧ (9 : Int) ≠ 5 ∧
    ((fun _ : Nat => "DEV") (5 : Int).natAbs).isEmpty = false ∧
    hiDesErrorMessage (fun _ => "DEV") (fun _ => "HOST") 5 9 = "DEV" ++ ", " ++ "HOST" :=
  ⟨by decide, by decide, by decide, by decide,
    (hiDesErrorMessage_spec (fun _ => "DEV") (fun _ => "HOST") 5 9).2.2.1
      (by decide) (by decide) (by decide) (by decide)⟩

/-- C10: a `send` of zero packets on a transmitting session succeeds
with an empty event trace (zero data-channel write attempts) and leaves
the attempt and failure counters, the transmitting flag and the bitrate
unchanged; only the entry resync check may adjust `due_time` and
`pkt_sent`. -/
theorem send_zero_packet_count (now fuel : Nat) (oracle : Nat → WriteResult) (st : Guts)
    (ht : st.transmitting = true) :
    send now oracle fuel 0 st = some (true, sendResync now st, []) ∧
    numWrites ([] : List Event) = 0 ∧
    (sendResync now st).all_write = st.all_write ∧
    (sendResync now st).fail_write = st.fail_write ∧
    (sendResync now st).transmitting = st.transmitting ∧
    (sendResync now st).bitrate = st.bitrate := by
  obtain ⟨hp1, hp2, hp3, hp4⟩ := sendResync_preserves now st
  refine ⟨?_, rfl, hp3, hp4, hp1, hp2⟩
  unfold send
  rw [ht]
  simp only [Bool.true_eq_false, if_false]
  cases fuel <;> simp [sendLoop, PKT_SIZE]

/-- Witness for C10 at a concrete state and oracle. -/
theorem send_zero_packet_count_witness :
    (⟨true, 5, 3, 9, 11, 13⟩ : Guts).transmitting = true ∧
    (send 7 (fun _ => ⟨1, 1⟩) 4 0 ⟨true, 5, 3, 9, 11, 13⟩ =
      some (true, sendResync 7 ⟨true, 5, 3, 9, 11, 13⟩, []) ∧
    numWrites ([] : List Event) = 0 ∧
    (sendResync 7 ⟨true, 5, 3, 9, 11, 13⟩).all_write = 11 ∧
    (sendResync 7 ⟨true, 5, 3, 9, 11, 13⟩).fail_write = 13 ∧
    (sendResync 7 ⟨true, 5, 3, 9, 11, 13⟩).transmitting = true ∧
    (sendResync 7 ⟨true, 5, 3, 9, 11, 13⟩).bitrate = 5) :=
  ⟨rfl, send_zero_packet_count 7 4 (fun _ => ⟨1, 1⟩) ⟨true, 5, 3, 9, 11, 13⟩ rfl⟩

lemma sendLoop_allFail (status errn : Int) (hs : status ≠ 0) (he : errn ≠ EINTR) :
    ∀ j : Nat, j ≤ max_retry → ∀ fuel : Nat, j < fuel → ∀ n remain : Nat, 0 < remain →
    ∀ st : Guts,
    ∃ stf tr, sendLoop (fun _ => ⟨status, errn⟩) fuel n remain (max_retry - j) st =
        some (false, stf, tr) ∧
      stf.all_write = st.all_write + (j + 1) ∧ stf.fail_write = st.fail_write + (j + 1) ∧
      numWrites tr = j + 1 ∧ numSleeps tr = j ∧
      (∀ d, Event.sleep d ∈ tr → d = error_delay) ∧
      ∃ tr0, tr = tr0 ++ [Event.reportSendError status errn] := by
  intro j
  induction j with
  | zero =>
    intro _ fuel hfuel n remain hrem st
    obtain ⟨f, rfl⟩ : ∃ f, fuel = f + 1 := ⟨fuel - 1, by omega⟩
    refine ⟨sendCount status st,
      [Event.write (min remain ITE_MAX_SEND_BYTES), Event.reportSendError status errn],
      ?_, ?_, ?_, ?_, ?_, ?_, ?_⟩
    · simp only [sendLoop, if_neg (Nat.pos_iff_ne_zero.1 hrem)]
      simp [hs, he, max_retry]
    · simp [sendCount]
    · simp [sendCount, hs]
    · simp [numWrites]
    · simp [numSleeps]
    · intro d hd
      simp at hd
    · exact ⟨[Event.write (min remain ITE_MAX_SEND_BYTES)], by simp⟩
  | succ k ih =>
    intro hj fuel hfuel n remain hrem st
    obtain ⟨f, rfl⟩ : ∃ f, fuel = f + 1 := ⟨fuel - 1, by omega⟩
    have hk : k ≤ max_retry := by omega
    have hflt : k < f := by omega
    have hlt : max_retry - (k + 1) < max_retry := by
      have : 0 < max_retry := by decide
      omega
    have harg : max_retry - (k + 1) + 1 = max_retry - k := by
      simp only [max_retry] at hj ⊢
      omega
    obtain ⟨stf, tr, htr, haw, hfw, hw, hsl, hmem, tr0, htr0⟩ :=
      ih hk f hflt (n + 1) remain hrem (sendCount status st)
    have hmr : ¬ max_retry = 0 := by decide
    by_cases hpre : max_retry - (k + 1) = 0 ∧ st.bitrate ≠ 0
    · refine ⟨stf, Event.waitUntil st.due_time :: Event.write (min remain ITE_MAX_SEND_BYTES) ::
        Event.sleep error_delay :: tr, ?_, ?_, ?_, ?_, ?_, ?_, ?_⟩
      · simp only [sendLoop, if_neg (Nat.pos_iff_ne_zero.1 hrem)]
        rw [harg]
        simp [hs, he, hlt, hpre, htr, hmr]
      · rw [haw]; simp [sendCount]; omega
      · rw [hfw]; simp [sendCount, hs]; omega
      · simp [numWrites, hw]
      · simp [numSleeps, hsl]
      · intro d hd
        simp only [List.mem_cons] at hd
        rcases hd with hd | hd | hd | hd
        · cases hd
        · cases hd
        · cases hd; rfl
        · exact hmem d hd
      · refine ⟨Event.waitUntil st.due_time :: Event.write (min remain ITE_MAX_SEND_BYTES) ::
          Event.sleep error_delay :: tr0, ?_⟩
        rw [htr0]; simp
    · refine ⟨stf, Event.write (min remain ITE_MAX_SEND_BYTES) ::
        Event.sleep error_delay :: tr, ?_, ?_, ?_, ?_, ?_, ?_, ?_⟩
      · simp only [sendLoop, if_neg (Nat.pos_iff_ne_zero.1 hrem)]
        rw [harg]
        simp [hs, he, hlt, hpre, htr, hmr]
      · rw [haw]; simp [sendCount]; omega
      · rw [hfw]; simp [sendCount, hs]; omega
      · simp [numWrites, hw]
      · simp [numSleeps, hsl]
      · intro d hd
        simp only [List.mem_cons] at hd
        rcases hd with hd | hd | hd
        · cases hd
        · cases hd; rfl
        · exact hmem d hd
      · refine ⟨Event.write (min remain ITE_MAX_SEND_BYTES) ::
          Event.sleep error_delay :: tr0, ?_⟩
        rw [htr0]; simp

/-- C4: when every data-channel write returns the same non-zero status
with a host error other than EINTR, `send` fails after exactly
`max_retry` (100) retry sleeps of `error_delay` (100) microseconds —
101 write attempts in all for the chunk — with both statistics counters
advanced by 101 and the last event reporting the final device status
together with the host error code. -/
theorem send_retry_bound (status errn : Int) (hs : status ≠ 0) (he : errn ≠ EINTR)
    (st : Guts) (now n : Nat) (ht : st.transmitting = true) (hn : 0 < n) :
    ∃ stf tr, send now (fun _ => ⟨status, errn⟩) (max_retry + 2) n st =
        some (false, stf, tr) ∧
      stf.all_write = st.all_write + (max_retry + 1) ∧
      stf.fail_write = st.fail_write + (max_retry + 1) ∧
      numWrites tr = max_retry + 1 ∧ numSleeps tr = max_retry ∧
      (∀ d, Event.sleep d ∈ tr → d = error_delay) ∧
      ∃ tr0, tr = tr0 ++ [Event.reportSendError status errn] := by
  have hrem : 0 < n * PKT_SIZE := Nat.mul_pos hn (by decide)
  obtain ⟨stf, tr, htr, haw, hfw, hw, hsl, hmem, hex⟩ :=
    sendLoop_allFail status errn hs he max_retry le_rfl (max_retry + 2) (by omega) 0
      (n * PKT_SIZE) hrem (sendResync now st)
  rw [Nat.sub_self] at htr
  obtain ⟨_, _, hp3, hp4⟩ := sendResync_preserves now st
  refine ⟨stf, tr, ?_, by rw [haw, hp3], by rw [hfw, hp4], hw, hsl, hmem, hex⟩
  unfold send
  rw [ht]
  simpa using htr

/-- Witness for C4 at a concrete always-failing data channel. -/
theorem send_retry_bound_witness :
    (5 : Int) ≠ 0 ∧ (9 : Int) ≠ EINTR ∧
    (⟨true, 0, 0, 0, 0, 0⟩ : Guts).transmitting = true ∧ 0 < 1 ∧
    (∃ stf tr, send 3 (fun _ => ⟨5, 9⟩) (max_retry + 2) 1 ⟨true, 0, 0, 0, 0, 0⟩ =
        some (false, stf, tr) ∧
      stf.all_write = 0 + (max_retry + 1) ∧
      stf.fail_write = 0 + (max_retry + 1) ∧
      numWrites tr = max_retry + 1 ∧ numSleeps tr = max_retry ∧
      (∀ d, Event.sleep d ∈ tr → d = error_delay) ∧
      ∃ tr0, tr = tr0 ++ [Event.reportSendError 5 9]) :=
  ⟨by decide, by decide, rfl, by decide,
    send_retry_bound 5 9 (by decide) (by decide) ⟨true, 0, 0, 0, 0, 0⟩ 3 1 rfl (by decide)⟩

/-- C5: a send of `n` packets is split into sequential chunks issued in
order, each a positive multiple of the packet size of at most
`ITE_MAX_SEND_BYTES` bytes (172 packets), every chunk but the last being
exactly the maximum; a 1000-packet request yields chunk sizes
`[172, 172, 172, 172, 172, 140]` packets, in that order. -/
theorem send_chunk_splitting (n now : Nat) (st : Guts) (ht : st.transmitting = true) :
    ∃ stf tr, send now (fun _ => ⟨0, 0⟩) n n st = some (true, stf, tr) ∧
      writeBursts tr = chunkSizes (n * PKT_SIZE) ∧
      (∀ b ∈ chunkSizes (n * PKT_SIZE), 0 < b ∧ b ≤ ITE_MAX_SEND_BYTES ∧ PKT_SIZE ∣ b) ∧
      (∀ i : Nat, i + 1 < (chunkSizes (n * PKT_SIZE)).length →
        (chunkSizes (n * PKT_SIZE))[i]? = some ITE_MAX_SEND_BYTES) ∧
      (chunkSizes (1000 * PKT_SIZE)).map (fun b => b / PKT_SIZE) =
        [172, 172, 172, 172, 172, 140] := by
  have hbound : n * PKT_SIZE ≤ n * ITE_MAX_SEND_BYTES :=
    mul_le_mul_left' (by decide) n
  obtain ⟨stf, tr, hloop, hbursts⟩ :=
    sendLoop_allOk n (n * PKT_SIZE) 0 (sendResync now st) hbound
  refine ⟨stf, tr, ?_, ?_, ?_, ?_, ?_⟩
  · unfold send
    rw [ht]
    simpa using hloop
  · rw [hbursts]
    exact chunkSizesAux_eq_chunkSizes hbound
  · exact chunkSizesAux_bursts _ (n * PKT_SIZE) (dvd_mul_left PKT_SIZE n)
  · exact fun i h => chunkSizesAux_full_chunks _ (n * PKT_SIZE) i h
  · decide

/-- Witness for C5 at a one-packet request on a transmitting state. -/
theorem send_chunk_splitting_witness :
    (⟨true, 0, 0, 0, 0, 0⟩ : Guts).transmitting = true ∧
    (∃ stf tr, send 0 (fun _ => ⟨0, 0⟩) 1 1 ⟨true, 0, 0, 0, 0, 0⟩ = some (true, stf, tr) ∧
      writeBursts tr = chunkSizes (1 * PKT_SIZE) ∧
      (∀ b ∈ chunkSizes (1 * PKT_SIZE), 0 < b ∧ b ≤ ITE_MAX_SEND_BYTES ∧ PKT_SIZE ∣ b) ∧
      (∀ i : Nat, i + 1 < (chunkSizes (1 * PKT_SIZE)).length →
        (chunkSizes (1 * PKT_SIZE))[i]? = some ITE_MAX_SEND_BYTES) ∧
      (chunkSizes (1000 * PKT_SIZE)).map (fun b => b / PKT_SIZE) =
        [172, 172, 172, 172, 172, 140]) :=
  ⟨rfl, send_chunk_splitting 1 0 ⟨true, 0, 0, 0, 0, 0⟩ rfl⟩

/-- C8: `tune` called with an out-of-set modulation, code rate, guard
interval, transmission mode or spectral inversion value, or with a
bandwidth whose kHz conversion is zero, fails with one of the
unsupported-parameter errors, issues zero control commands and leaves
the state (in particular the stored nominal bitrate) unchanged. -/
theorem tune_rejects_invalid_parameter (bwHz : BandWidth → Nat) (oracle : Cmd → IoctlResult)
    (params : TunerParametersDVBT) (st : Guts)
    (h : bwHz params.bandwidth / 1000 = 0 ∨ constellationCode params.modulation = none ∨
      codeRateCode params.fec_hp = none ∨ intervalCode params.guard_interval = none ∨
      transmissionModeCode params.transmission_mode = none ∨
      inversionSetting params.inversion = none) :
    ∃ e, tune bwHz oracle params st = (e, st, []) ∧ isUnsupportedParameter e = true := by
  by_cases hbw : bwHz params.bandwidth / 1000 = 0
  · exact ⟨.unsupportedBandwidth, by simp [tune, hbw], rfl⟩
  · cases hc : constellationCode params.modulation with
    | none => exact ⟨.unsupportedConstellation, by simp [tune, hbw, hc], rfl⟩
    | some c =>
      cases hcr : codeRateCode params.fec_hp with
      | none => exact ⟨.unsupportedCodeRate, by simp [tune, hbw, hc, hcr], rfl⟩
      | some cr =>
        cases hg : intervalCode params.guard_interval with
        | none => exact ⟨.unsupportedGuardInterval, by simp [tune, hbw, hc, hcr, hg], rfl⟩
        | some g =>
          cases hm : transmissionModeCode params.transmission_mode with
          | none =>
            exact ⟨.unsupportedTransmissionMode, by simp [tune, hbw, hc, hcr, hg, hm], rfl⟩
          | some m =>
            cases hi : inversionSetting params.inversion with
            | none =>
              exact ⟨.unsupportedInversion, by simp [tune, hbw, hc, hcr, hg, hm, hi], rfl⟩
            | some i =>
              exfalso
              rcases h with h | h | h | h | h | h <;> simp_all

/-- Witness for C8: an out-of-set constellation (`QAM_256`) is rejected
with no command issued and the bitrate untouched. -/
theorem tune_rejects_invalid_parameter_witness :
    constellationCode
      (⟨474000000, .BW_8_MHZ, .QAM_256, .FEC_2_3, .GUARD_1_32, .TM_8K, .SPINV_OFF, 27709893⟩ :
        TunerParametersDVBT).modulation = none ∧
    ∃ e, tune (fun _ => 8000000) (fun _ => ⟨0, 0⟩)
        ⟨474000000, .BW_8_MHZ, .QAM_256, .FEC_2_3, .GUARD_1_32, .TM_8K, .SPINV_OFF, 27709893⟩
        ⟨false, 0, 0, 0, 0, 0⟩ =
      (e, ⟨false, 0, 0, 0, 0, 0⟩, []) ∧ isUnsupportedParameter e = true :=
  ⟨rfl, tune_rejects_invalid_parameter (fun _ => 8000000) (fun _ => ⟨0, 0⟩)
    ⟨474000000, .BW_8_MHZ, .QAM_256, .FEC_2_3, .GUARD_1_32, .TM_8K, .SPINV_OFF, 27709893⟩
    ⟨false, 0, 0, 0, 0, 0⟩ (Or.inr (Or.inl rfl))⟩

end HiDesDevice
